import Mathlib

/-!
Shallow embedding of the water-quest browser game (`src/script.js`).

The script keeps all round state in module-level mutable variables
(`currentCans`, `gameActive`, `timeLeft`, `currentGoal`, `spawnRate`,
`obstacleRate`, `announcedMilestones`), a 3x3 grid of DOM cells, and the
interval handle variables `spawnInterval`, `obstacleInterval`,
`countdownInterval`.  We model that state as a record `GameState` and each
event handler / timer callback as a pure state transformer.  Randomness
(which cell is picked, which message string is shown) is passed in as an
explicit parameter; message strings themselves are abstracted to the
win/lose outcome, since no claim is about the text.

`setInterval` / `clearInterval` are modelled by an explicit scheduler: a
list of live (handle-id, task) pairs plus a fresh-id counter.  The handle
variables hold `Option Nat` ids, mirroring the script's globals.
-/

namespace WaterQuest

/-- Content of one grid cell.  In the DOM a cell's `innerHTML` is always
assigned wholesale (either the water-can wrapper, the obstacle wrapper, or
the empty string), so a cell holds at most one item; we still keep two
independent flags so that "a cell holding both" is representable and the
no-overlap invariant is a real statement. -/
structure Cell where
  hasCan : Bool
  hasObstacle : Bool
  deriving DecidableEq, Repr

/-- `innerHTML.trim() === ''`: neither a can nor an obstacle. -/
def Cell.isEmptyCell : Cell := ⟨false, false⟩

/-- The three kinds of periodic callback the script passes to `setInterval`:
`spawnWaterCan`, `spawnObstacle`, and the countdown closure. -/
inductive TaskKind where
  | canSpawner
  | obstacleSpawner
  | countdownTicker
  deriving DecidableEq, Repr

/-- One periodic schedule: its callback kind and its period in ms. -/
structure Task where
  kind : TaskKind
  period : Nat
  deriving DecidableEq, Repr

/-- The set of live `setInterval` schedules, with fresh handle ids. -/
structure Scheduler where
  live : List (Nat × Task)
  nextId : Nat
  deriving DecidableEq, Repr

def Scheduler.emptySched : Scheduler := ⟨[], 0⟩

/-- `setInterval(cb, ms)`: registers a new schedule, returns its handle. -/
def setIntervalTask (sch : Scheduler) (t : Task) : Scheduler × Nat :=
  (⟨sch.live ++ [(sch.nextId, t)], sch.nextId + 1⟩, sch.nextId)

/-- `clearInterval(h)`: removes the schedule with handle `h` (no-op on an
unset handle variable or an already-cleared id). -/
def clearIntervalTask (sch : Scheduler) (h : Option Nat) : Scheduler :=
  match h with
  | none => sch
  | some id => { sch with live := sch.live.filter (fun p => p.1 ≠ id) }

/-- The script's module-level mutable state.  `currentCans` and `timeLeft`
are JS numbers that the code decrements, so they are modelled as `Int`
(the score clamp `Math.max(0, ...)` is then a real clamp, not a typing
artifact).  `announcedMilestones` is a JS `Set` of the fraction keys
0.25/0.5/0.75/1.0; we represent fraction `k/4` by the numerator
`k ∈ {1,2,3,4}` and the set by a list used only through membership.
`endMessage` abstracts the `#end-message` element: `none` for empty text,
`some true` for a win message, `some false` for a lose message.
`confetti` records whether a confetti container is currently attached. -/
structure GameState where
  currentCans : Int
  gameActive : Bool
  timeLeft : Int
  currentGoal : Nat
  spawnRate : Nat
  obstacleRate : Nat
  announcedMilestones : List Nat
  grid : Fin 9 → Cell
  sched : Scheduler
  spawnInterval : Option Nat
  obstacleInterval : Option Nat
  countdownInterval : Option Nat
  endMessage : Option Bool
  confetti : Bool

def keyEasy : String := "easy"

def keyHard : String := "hard"

def keyNormal : String := "normal"

def keyEmpty : String := ""

/-- The fixed `DifficultyProfile` of the spec: goal, duration (s), water-can
spawn period (ms), obstacle spawn period (ms). -/
structure DifficultyProfile where
  goal : Nat
  duration : Int
  spawnIntervalMs : Nat
  obstacleIntervalMs : Nat
  deriving DecidableEq, Repr

/-- The `switch (difficulty)` in `startGame` (lines 108-126): `easy` and
`hard` have explicit cases, everything else takes the `default` branch. -/
def difficultyParams (d : String) : DifficultyProfile :=
  if d = keyEasy then ⟨15, 40, 1200, 4000⟩
  else if d = keyHard then ⟨30, 20, 700, 2200⟩
  else ⟨20, 30, 1000, 3000⟩

/-- `document.getElementById('difficulty')?.value || 'normal'`: a missing
element (`none`) or an empty (falsy) value string falls back to "normal". -/
def readDifficulty (v : Option String) : String :=
  match v with
  | none => keyNormal
  | some s => if s = keyEmpty then keyNormal else s

/-- `Math.ceil(goal * f)` for the milestone fraction `f = q/4`,
`q ∈ {1,2,3,4}`.  For an integer goal, `goal * f` is an exact dyadic
float, so the JS ceiling equals the exact rational ceiling
`⌈goal * q / 4⌉ = (goal * q + 3) / 4` in natural division. -/
def milestoneTarget (goal q : Nat) : Nat := (goal * q + 3) / 4

/-- The fraction keys of `milestoneMessages`, as quarters, after
`Object.keys(...).map(Number).sort((a,b) => a-b)`: ascending order. -/
def milestoneQuarters : List Nat := [1, 2, 3, 4]

/-- The `for (const f of fractions)` loop body of
`checkAndAnnounceMilestones`: threading the announced set, returning the
new set together with the list of fractions whose achievement message was
fired on this call, in loop order. -/
def announceLoop (score : Int) (goal : Nat) :
    List Nat → List Nat → List Nat × List Nat
  | [], ann => (ann, [])
  | q :: qs, ann =>
    if (milestoneTarget goal q : Int) ≤ score ∧ q ∉ ann then
      let r := announceLoop score goal qs (q :: ann)
      (r.1, q :: r.2)
    else
      announceLoop score goal qs ann

/-- `checkAndAnnounceMilestones()` (lines 288-300), with the globals it
reads (`currentCans`, `currentGoal`, `announcedMilestones`) passed in.
Returns the updated announced set and the fired fractions. -/
def checkAndAnnounceMilestones (score : Int) (goal : Nat) (ann : List Nat) :
    List Nat × List Nat :=
  if goal = 0 then (ann, [])
  else announceLoop score goal milestoneQuarters ann

/-- `spawnWaterCan()` (lines 52-68): if the game is inactive, do nothing;
otherwise clear ALL cells and place the can in the random cell `r`. -/
def spawnWaterCan (s : GameState) (r : Fin 9) : GameState :=
  if s.gameActive = false then s
  else { s with grid := Function.update (fun _ => Cell.isEmptyCell) r ⟨true, false⟩ }

/-- `spawnObstacle()` (lines 71-92): if active and the random cell `r` is
currently empty, place an obstacle there; otherwise the tick is a no-op.
(The 1200ms self-expiry `setTimeout` is modelled by `obstacleExpire`.) -/
def spawnObstacle (s : GameState) (r : Fin 9) : GameState :=
  if s.gameActive = false then s
  else if s.grid r = Cell.isEmptyCell then
    { s with grid := Function.update s.grid r ⟨false, true⟩ }
  else s

/-- The obstacle self-expiry callback (lines 86-90): if the captured cell
still contains an obstacle wrapper, set its `innerHTML` to empty. -/
def obstacleExpire (s : GameState) (i : Fin 9) : GameState :=
  if (s.grid i).hasObstacle = true then
    { s with grid := Function.update s.grid i Cell.isEmptyCell }
  else s

/-- `startGame()` (lines 95-144).  Guarded no-op while a round is active.
Otherwise: clears the grid (`createGrid`), resets score and end message,
sets the difficulty parameters, and registers FOUR periodic schedules —
the can spawner at `spawnRate`, an obstacle spawner at `obstacleRate`
(line 130), a second obstacle spawner at a fixed 3000 ms (line 133, which
overwrites the `obstacleInterval` handle variable, leaking the first
obstacle schedule's handle), and the 1000 ms countdown ticker.
Note: `announcedMilestones` and any attached confetti are NOT touched. -/
def startGame (s : GameState) (difficultyValue : Option String) : GameState :=
  if s.gameActive = true then s
  else
    let p := difficultyParams (readDifficulty difficultyValue)
    let step1 := setIntervalTask s.sched ⟨TaskKind.canSpawner, p.spawnIntervalMs⟩
    let step2 := setIntervalTask step1.1 ⟨TaskKind.obstacleSpawner, p.obstacleIntervalMs⟩
    let step3 := setIntervalTask step2.1 ⟨TaskKind.obstacleSpawner, 3000⟩
    let step4 := setIntervalTask step3.1 ⟨TaskKind.countdownTicker, 1000⟩
    { s with
      gameActive := true
      grid := fun _ => Cell.isEmptyCell
      currentCans := 0
      endMessage := none
      currentGoal := p.goal
      timeLeft := p.duration
      spawnRate := p.spawnIntervalMs
      obstacleRate := p.obstacleIntervalMs
      sched := step4.1
      spawnInterval := some step1.2
      obstacleInterval := some step3.2
      countdownInterval := some step4.2 }

/-- `endGame()` (lines 146-172): marks inactive, clears the three handle
variables' schedules, clears every cell, and shows a win message (plus
confetti) iff `currentCans >= currentGoal`, else a lose message. -/
def endGame (s : GameState) : GameState :=
  let sch :=
    clearIntervalTask
      (clearIntervalTask (clearIntervalTask s.sched s.spawnInterval) s.countdownInterval)
      s.obstacleInterval
  if (s.currentGoal : Int) ≤ s.currentCans then
    { s with
      gameActive := false
      sched := sch
      grid := fun _ => Cell.isEmptyCell
      endMessage := some true
      confetti := true }
  else
    { s with
      gameActive := false
      sched := sch
      grid := fun _ => Cell.isEmptyCell
      endMessage := some false }

/-- The countdown `setInterval` closure (lines 136-143): no-op while
inactive; otherwise decrement `timeLeft` and invoke `endGame` iff the
decremented value is ≤ 0.  The second component records whether `endGame`
was invoked on this tick. -/
def countdownTick (s : GameState) : GameState × Bool :=
  if s.gameActive = false then (s, false)
  else
    let s1 := { s with timeLeft := s.timeLeft - 1 }
    if s1.timeLeft ≤ 0 then (endGame s1, true) else (s1, false)

/-- The grid click handler (lines 178-227), for a click landing in cell
`i`.  Inactive: no-op.  Cell has a can: score += 1, milestones are
re-evaluated with the new score, and only the can wrapper is removed.
Else cell has an obstacle: score becomes `max(0, score - 2)` and only the
obstacle wrapper is removed.  Else: visual miss feedback only. -/
def handleGridClick (s : GameState) (i : Fin 9) : GameState :=
  if s.gameActive = false then s
  else
    let cell := s.grid i
    if cell.hasCan = true then
      let score := s.currentCans + 1
      let r := checkAndAnnounceMilestones score s.currentGoal s.announcedMilestones
      { s with
        currentCans := score
        announcedMilestones := r.1
        grid := Function.update s.grid i ⟨false, cell.hasObstacle⟩ }
    else if cell.hasObstacle = true then
      { s with
        currentCans := max 0 (s.currentCans - 2)
        grid := Function.update s.grid i ⟨cell.hasCan, false⟩ }
    else s

/-- The reset-button handler (lines 230-254): marks inactive, clears the
three handle variables' schedules, zeroes the score, sets `timeLeft` to
the literal 30, clears the end message, every cell, the announced
milestone set, and removes any confetti container. -/
def resetGame (s : GameState) : GameState :=
  let sch :=
    clearIntervalTask
      (clearIntervalTask (clearIntervalTask s.sched s.spawnInterval) s.countdownInterval)
      s.obstacleInterval
  { s with
    gameActive := false
    sched := sch
    currentCans := 0
    timeLeft := 30
    endMessage := none
    grid := fun _ => Cell.isEmptyCell
    announcedMilestones := []
    confetti := false }

/-- The module-level initial values of the script's globals (lines 1-35):
score 0, inactive, 30 s, goal 20, rates 1000/3000 ms, no announced
milestones, empty grid, no schedules, unset handle variables. -/
def initState : GameState where
  currentCans := 0
  gameActive := false
  timeLeft := 30
  currentGoal := 20
  spawnRate := 1000
  obstacleRate := 3000
  announcedMilestones := []
  grid := fun _ => Cell.isEmptyCell
  sched := Scheduler.emptySched
  spawnInterval := none
  obstacleInterval := none
  countdownInterval := none
  endMessage := none
  confetti := false

/-- One event-loop dispatch: any of the handlers / timer callbacks may run
next (single-threaded, non-overlapping), with arbitrary random choices. -/
inductive Step : GameState → GameState → Prop where
  | start (s : GameState) (d : Option String) : Step s (startGame s d)
  | spawnCan (s : GameState) (r : Fin 9) : Step s (spawnWaterCan s r)
  | spawnObs (s : GameState) (r : Fin 9) : Step s (spawnObstacle s r)
  | expire (s : GameState) (i : Fin 9) : Step s (obstacleExpire s i)
  | tick (s : GameState) : Step s (countdownTick s).1
  | click (s : GameState) (i : Fin 9) : Step s (handleGridClick s i)
  | reset (s : GameState) : Step s (resetGame s)

/-- States reachable from the page-load state by event dispatches. -/
def Reachable (s : GameState) : Prop :=
  Relation.ReflTransGen Step initState s

/-- A syntactic event, for writing concrete executable traces. -/
inductive Op where
  | start (d : Option String)
  | spawnCan (r : Fin 9)
  | spawnObs (r : Fin 9)
  | expire (i : Fin 9)
  | tick
  | click (i : Fin 9)
  | reset

/-- Dispatch one syntactic event. -/
def applyOp (s : GameState) : Op → GameState
  | Op.start d => startGame s d
  | Op.spawnCan r => spawnWaterCan s r
  | Op.spawnObs r => spawnObstacle s r
  | Op.expire i => obstacleExpire s i
  | Op.tick => (countdownTick s).1
  | Op.click i => handleGridClick s i
  | Op.reset => resetGame s

/-- Run a list of events from a state. -/
def runOps (s : GameState) (ops : List Op) : GameState :=
  ops.foldl applyOp s

theorem step_applyOp (s : GameState) (o : Op) : Step s (applyOp s o) := by
  cases o with
  | start d => exact Step.start s d
  | spawnCan r => exact Step.spawnCan s r
  | spawnObs r => exact Step.spawnObs s r
  | expire i => exact Step.expire s i
  | tick => exact Step.tick s
  | click i => exact Step.click s i
  | reset => exact Step.reset s

theorem reachable_runOps (s : GameState) (h : Reachable s) (ops : List Op) :
    Reachable (runOps s ops) := by
  induction ops generalizing s with
  | nil => exact h
  | cons o rest ih =>
    exact ih (applyOp s o) (Relation.ReflTransGen.tail h (step_applyOp s o))

/-- Spawn a can in cell 0 and click it: one scoring hit. -/
def collectOnce : List Op := [Op.spawnCan 0, Op.click 0]

/-- A full round on the default (normal) difficulty: start, score five hits
(reaching the 0.25 milestone of the goal 20), then let the 30 countdown
ticks run out so that the round ends via `endGame`. -/
def c3RoundOps : List Op :=
  Op.start none :: ((List.replicate 5 collectOnce).flatten ++ List.replicate 30 Op.tick)

/-- The state just after that round has ended. -/
def c3EndState : GameState := runOps initState c3RoundOps

/-- The state right after pressing Start with the easy difficulty selected,
from the page-load state. -/
def c4EasyStart : GameState := startGame initState (some keyEasy)

/-- The state right after pressing Start with the hard difficulty selected,
from the page-load state. -/
def c9HardStart : GameState := startGame initState (some keyHard)

/-- An active round (default difficulty) in which the obstacle spawner has
just placed an obstacle in cell 0. -/
def c6ObstacleState : GameState := spawnObstacle (startGame initState none) 0

set_option maxRecDepth 10000 in
/-- Claim C3: the claim says every `start()` from an inactive state leaves
the announced-milestone set empty.  The code violates it: `startGame`
never touches `announcedMilestones` (only the reset button handler clears
it), so after a round on normal difficulty in which the 0.25 milestone
fired (score reached 5 of the goal 20) and which ended by countdown,
pressing Start again begins a round whose announced set still contains the
0.25 fraction (represented by the quarter 1). -/
theorem C3_milestones_survive_start :
    Reachable c3EndState ∧
    c3EndState.gameActive = false ∧
    c3EndState.announcedMilestones = [1] ∧
    (startGame c3EndState none).gameActive = true ∧
    (startGame c3EndState none).currentCans = 0 ∧
    (startGame c3EndState none).announcedMilestones = [1] := by
  refine ⟨reachable_runOps initState Relation.ReflTransGen.refl c3RoundOps,
    ?_, ?_, ?_, ?_, ?_⟩ <;> decide

/-- Claim C4: the claim says obstacle-spawn ticks run on exactly one
periodic schedule, at the selected difficulty's `obstacleIntervalMs`.  The
code violates it: `startGame` registers TWO obstacle-spawn schedules — one
at `obstacleRate` (line 130) and a second at a fixed 3000 ms (line 133).
On easy difficulty the live schedule list holds obstacle spawners with
periods 4000 ms and 3000 ms. -/
theorem C4_two_obstacle_schedules :
    Reachable c4EasyStart ∧
    c4EasyStart.obstacleRate = 4000 ∧
    (c4EasyStart.sched.live.filter
        (fun p => decide (p.2.kind = TaskKind.obstacleSpawner))).map
      (fun p => p.2.period) = [4000, 3000] := by
  refine ⟨Relation.ReflTransGen.single (Step.start initState (some keyEasy)), ?_, ?_⟩ <;>
    decide

/-- Claim C5: the claim says `end()`/`reset()` cancel every periodic
schedule created by the preceding `start()`.  The code violates it: the
line-133 reassignment overwrites the `obstacleInterval` handle, so the
line-130 obstacle schedule (id 1, period 4000 ms on easy) can never be
cleared; it is still live after `endGame` and after the reset handler. -/
theorem C5_schedule_leak_survives_end_and_reset :
    Reachable c4EasyStart ∧
    (endGame c4EasyStart).sched.live = [(1, ⟨TaskKind.obstacleSpawner, 4000⟩)] ∧
    (resetGame c4EasyStart).sched.live = [(1, ⟨TaskKind.obstacleSpawner, 4000⟩)] ∧
    (endGame c4EasyStart).sched.live ≠ [] := by
  refine ⟨Relation.ReflTransGen.single (Step.start initState (some keyEasy)), ?_, ?_, ?_⟩ <;>
    decide

/-- Claim C6, counterexample: the claim says a collectible-spawn tick
leaves obstacle-occupied cells unchanged.  In a reachable active round
with an obstacle in cell 0, a `spawnWaterCan` tick that places the can in
cell 5 wipes cell 0 as well (lines 56-57 clear ALL cells). -/
theorem C6_counterexample :
    Reachable c6ObstacleState ∧
    c6ObstacleState.gameActive = true ∧
    (c6ObstacleState.grid 0).hasObstacle = true ∧
    (spawnWaterCan c6ObstacleState 5).grid 0 = Cell.isEmptyCell ∧
    ((spawnWaterCan c6ObstacleState 5).grid 0).hasObstacle = false := by
  refine ⟨Relation.ReflTransGen.tail
      (Relation.ReflTransGen.single (Step.start initState none))
      (Step.spawnObs (startGame initState none) 0), ?_, ?_, ?_, ?_⟩ <;> decide

/-- Claim C6, amended: a collectible-spawn tick in an active round clears
ALL cells — obstacle-occupied ones included — and then places the single
collectible in the chosen cell; an obstacle can therefore also disappear
at a collectible-spawn tick, in addition to its 1200 ms self-expiry, a
click on it, or round end/reset. -/
theorem C6_spawn_clears_all_cells :
    ∀ (s : GameState) (r : Fin 9), s.gameActive = true →
      (spawnWaterCan s r).grid r = ⟨true, false⟩ ∧
      ∀ j : Fin 9, j ≠ r → (spawnWaterCan s r).grid j = Cell.isEmptyCell := by
  intro s r hs
  unfold spawnWaterCan
  rw [hs]
  refine ⟨by simp, fun j hj => ?_⟩
  simp [Function.update_noteq hj]

/-- Witness for the amended claim C6, at a concrete reachable input. -/
theorem C6_witness :
    (spawnWaterCan (startGame initState none) 0).grid 0 = ⟨true, false⟩ ∧
    (spawnWaterCan (startGame initState none) 0).grid 3 = Cell.isEmptyCell :=
  ⟨(C6_spawn_clears_all_cells (startGame initState none) 0 (by decide)).1,
   (C6_spawn_clears_all_cells (startGame initState none) 0 (by decide)).2 3 (by decide)⟩

/-- Claim C9, counterexample: the claim says `reset()` sets the timer to
the selected difficulty's base duration.  With hard selected (base
duration 20 s), the reset handler sets `timeLeft` to the literal 30
(line 238), not 20. -/
theorem C9_counterexample :
    Reachable c9HardStart ∧
    c9HardStart.gameActive = true ∧
    c9HardStart.timeLeft = 20 ∧
    (difficultyParams keyHard).duration = 20 ∧
    (resetGame c9HardStart).timeLeft = 30 ∧
    (resetGame c9HardStart).timeLeft ≠ (difficultyParams keyHard).duration := by
  refine ⟨Relation.ReflTransGen.single (Step.start initState (some keyHard)),
    ?_, ?_, ?_, ?_, ?_⟩ <;> decide

/-- Claim C9, amended: invoking `reset()` in any state (mid-round
included) yields active = false, score 0, the timer set to the fixed
default 30 s (regardless of the selected difficulty), every grid cell
cleared, no win/lose message, and an empty announced-milestone set. -/
theorem C9_reset_clean_state :
    ∀ s : GameState,
      (resetGame s).gameActive = false ∧
      (resetGame s).currentCans = 0 ∧
      (resetGame s).timeLeft = 30 ∧
      (∀ i : Fin 9, (resetGame s).grid i = Cell.isEmptyCell) ∧
      (resetGame s).endMessage = none ∧
      (resetGame s).announcedMilestones = [] := by
  intro s
  exact ⟨rfl, rfl, rfl, fun i => rfl, rfl, rfl⟩

theorem endGame_currentCans (s : GameState) : (endGame s).currentCans = s.currentCans := by
  unfold endGame
  by_cases h : (s.currentGoal : Int) ≤ s.currentCans <;> simp [h]

theorem endGame_timeLeft (s : GameState) : (endGame s).timeLeft = s.timeLeft := by
  unfold endGame
  by_cases h : (s.currentGoal : Int) ≤ s.currentCans <;> simp [h]

theorem endGame_grid (s : GameState) : (endGame s).grid = fun _ => Cell.isEmptyCell := by
  unfold endGame
  by_cases h : (s.currentGoal : Int) ≤ s.currentCans <;> simp [h]

theorem endGame_win_iff (s : GameState) :
    (endGame s).endMessage = some true ↔ (s.currentGoal : Int) ≤ s.currentCans := by
  unfold endGame
  by_cases h : (s.currentGoal : Int) ≤ s.currentCans <;> simp [h]

theorem endGame_confetti_of_win (s : GameState)
    (h : (s.currentGoal : Int) ≤ s.currentCans) : (endGame s).confetti = true := by
  unfold endGame
  simp [h]

/-- Claim C1: in the countdown callback, `endGame` is invoked exactly when
the tick decrements `timeLeft` to a value ≤ 0 (and an inactive tick never
invokes it); `endGame` classifies the outcome as a win iff the final score
is ≥ the goal, a score exactly equal to the goal is a win, and a win
triggers the confetti celebration. -/
theorem C1_end_on_timeout_win_iff_goal :
    ∀ s : GameState,
      ((countdownTick s).2 = true ↔ s.gameActive = true ∧ s.timeLeft - 1 ≤ 0) ∧
      (s.gameActive = true → (countdownTick s).1.timeLeft = s.timeLeft - 1) ∧
      ((endGame s).endMessage = some true ↔ (s.currentGoal : Int) ≤ s.currentCans) ∧
      ((endGame s).endMessage = some false ↔ ¬((s.currentGoal : Int) ≤ s.currentCans)) ∧
      ((s.currentGoal : Int) ≤ s.currentCans → (endGame s).confetti = true) ∧
      (s.currentCans = (s.currentGoal : Int) →
        (endGame s).endMessage = some true ∧ (endGame s).confetti = true) := by
  intro s
  refine ⟨?_, ?_, ?_, ?_, ?_, ?_⟩
  · unfold countdownTick
    cases hA : s.gameActive with
    | false => simp [hA]
    | true =>
      by_cases ht : s.timeLeft - 1 ≤ 0 <;> simp [hA, ht]
  · intro hA
    unfold countdownTick
    by_cases ht : s.timeLeft - 1 ≤ 0 <;> simp [hA, ht, endGame_timeLeft]
  · exact endGame_win_iff s
  · unfold endGame
    by_cases h : (s.currentGoal : Int) ≤ s.currentCans <;> simp [h]
  · exact endGame_confetti_of_win s
  · intro h
    exact ⟨(endGame_win_iff s).mpr h.symm.le, endGame_confetti_of_win s h.symm.le⟩

/-- A concrete active state whose score equals the goal (20). -/
def c1WitnessState : GameState :=
  { initState with gameActive := true, currentCans := 20 }

/-- Witness for claim C1 at a concrete input. -/
theorem C1_witness :
    (countdownTick c1WitnessState).1.timeLeft = c1WitnessState.timeLeft - 1 ∧
    (endGame c1WitnessState).endMessage = some true ∧
    (endGame c1WitnessState).confetti = true :=
  ⟨(C1_end_on_timeout_win_iff_goal c1WitnessState).2.1 (by decide),
   ((C1_end_on_timeout_win_iff_goal c1WitnessState).2.2.2.2.2 (by decide)).1,
   ((C1_end_on_timeout_win_iff_goal c1WitnessState).2.2.2.2.2 (by decide)).2⟩

theorem startGame_fields (s : GameState) (hs : s.gameActive = false) (d : Option String) :
    (startGame s d).currentGoal = (difficultyParams (readDifficulty d)).goal ∧
    (startGame s d).timeLeft = (difficultyParams (readDifficulty d)).duration ∧
    (startGame s d).spawnRate = (difficultyParams (readDifficulty d)).spawnIntervalMs ∧
    (startGame s d).obstacleRate = (difficultyParams (readDifficulty d)).obstacleIntervalMs ∧
    (startGame s d).gameActive = true ∧
    (startGame s d).currentCans = 0 ∧
    (startGame s d).announcedMilestones = s.announcedMilestones ∧
    (startGame s d).endMessage = none := by
  unfold startGame
  simp [hs]

theorem difficultyParams_unknown (v : String) (h1 : v ≠ keyEasy) (h2 : v ≠ keyHard) :
    difficultyParams (readDifficulty (some v)) = ⟨20, 30, 1000, 3000⟩ := by
  by_cases hv : v = keyEmpty
  · subst hv
    decide
  · show difficultyParams (if v = keyEmpty then keyNormal else v) = _
    rw [if_neg hv]
    unfold difficultyParams
    rw [if_neg h1, if_neg h2]

/-- Claim C7: from an inactive state, `start()` sets goal/duration/spawn
rates to the selected difficulty's exact fixed profile (easy: 15/40 s/
1200 ms/4000 ms; normal: 20/30 s/1000 ms/3000 ms; hard: 30/20 s/700 ms/
2200 ms), and an unspecified (missing element) or unknown selection falls
back to the normal profile. -/
theorem C7_difficulty_profiles :
    ∀ s : GameState, s.gameActive = false →
      ((startGame s (some keyEasy)).currentGoal = 15 ∧
        (startGame s (some keyEasy)).timeLeft = 40 ∧
        (startGame s (some keyEasy)).spawnRate = 1200 ∧
        (startGame s (some keyEasy)).obstacleRate = 4000) ∧
      ((startGame s (some keyNormal)).currentGoal = 20 ∧
        (startGame s (some keyNormal)).timeLeft = 30 ∧
        (startGame s (some keyNormal)).spawnRate = 1000 ∧
        (startGame s (some keyNormal)).obstacleRate = 3000) ∧
      ((startGame s (some keyHard)).currentGoal = 30 ∧
        (startGame s (some keyHard)).timeLeft = 20 ∧
        (startGame s (some keyHard)).spawnRate = 700 ∧
        (startGame s (some keyHard)).obstacleRate = 2200) ∧
      ((startGame s none).currentGoal = 20 ∧
        (startGame s none).timeLeft = 30 ∧
        (startGame s none).spawnRate = 1000 ∧
        (startGame s none).obstacleRate = 3000) ∧
      (∀ v : String, v ≠ keyEasy → v ≠ keyHard →
        (startGame s (some v)).currentGoal = 20 ∧
        (startGame s (some v)).timeLeft = 30 ∧
        (startGame s (some v)).spawnRate = 1000 ∧
        (startGame s (some v)).obstacleRate = 3000) := by
  intro s hs
  refine ⟨⟨?_, ?_, ?_, ?_⟩, ⟨?_, ?_, ?_, ?_⟩, ⟨?_, ?_, ?_, ?_⟩, ⟨?_, ?_, ?_, ?_⟩, ?_⟩
  · exact ((startGame_fields s hs (some keyEasy)).1).trans (by decide)
  · exact ((startGame_fields s hs (some keyEasy)).2.1).trans (by decide)
  · exact ((startGame_fields s hs (some keyEasy)).2.2.1).trans (by decide)
  · exact ((startGame_fields s hs (some keyEasy)).2.2.2.1).trans (by decide)
  · exact ((startGame_fields s hs (some keyNormal)).1).trans (by decide)
  · exact ((startGame_fields s hs (some keyNormal)).2.1).trans (by decide)
  · exact ((startGame_fields s hs (some keyNormal)).2.2.1).trans (by decide)
  · exact ((startGame_fields s hs (some keyNormal)).2.2.2.1).trans (by decide)
  · exact ((startGame_fields s hs (some keyHard)).1).trans (by decide)
  · exact ((startGame_fields s hs (some keyHard)).2.1).trans (by decide)
  · exact ((startGame_fields s hs (some keyHard)).2.2.1).trans (by decide)
  · exact ((startGame_fields s hs (some keyHard)).2.2.2.1).trans (by decide)
  · exact ((startGame_fields s hs none).1).trans (by decide)
  · exact ((startGame_fields s hs none).2.1).trans (by decide)
  · exact ((startGame_fields s hs none).2.2.1).trans (by decide)
  · exact ((startGame_fields s hs none).2.2.2.1).trans (by decide)
  · intro v h1 h2
    have hu := difficultyParams_unknown v h1 h2
    refine ⟨?_, ?_, ?_, ?_⟩
    · exact ((startGame_fields s hs (some v)).1).trans (by rw [hu])
    · exact ((startGame_fields s hs (some v)).2.1).trans (by rw [hu])
    · exact ((startGame_fields s hs (some v)).2.2.1).trans (by rw [hu])
    · exact ((startGame_fields s hs (some v)).2.2.2.1).trans (by rw [hu])

def keyUnknown : String := "mystery"

/-- Witness for claim C7 at a concrete input (the page-load state, with an
unknown difficulty string exercising the fallback clause). -/
theorem C7_witness :
    (startGame initState (some keyEasy)).currentGoal = 15 ∧
    (startGame initState (some keyHard)).timeLeft = 20 ∧
    (startGame initState (some keyUnknown)).obstacleRate = 3000 :=
  ⟨(C7_difficulty_profiles initState rfl).1.1,
   (C7_difficulty_profiles initState rfl).2.2.1.2.1,
   ((C7_difficulty_profiles initState rfl).2.2.2.2 keyUnknown (by decide) (by decide)).2.2.2⟩

theorem scoreInv_step {s t : GameState} (h : Step s t) (hs : 0 ≤ s.currentCans) :
    0 ≤ t.currentCans := by
  cases h with
  | start d =>
    unfold startGame
    by_cases hA : s.gameActive = true
    · simpa [hA] using hs
    · simp [hA]
  | spawnCan r =>
    unfold spawnWaterCan
    by_cases hA : s.gameActive = false <;> simpa [hA] using hs
  | spawnObs r =>
    unfold spawnObstacle
    by_cases hA : s.gameActive = false
    · simpa [hA] using hs
    · by_cases hE : s.grid r = Cell.isEmptyCell <;> simpa [hA, hE] using hs
  | expire i =>
    unfold obstacleExpire
    by_cases hO : (s.grid i).hasObstacle = true <;> simpa [hO] using hs
  | tick =>
    unfold countdownTick
    by_cases hA : s.gameActive = false
    · simpa [hA] using hs
    · by_cases ht : s.timeLeft - 1 ≤ 0 <;>
        simpa [hA, ht, endGame_currentCans] using hs
  | click i =>
    unfold handleGridClick
    by_cases hA : s.gameActive = false
    · simpa [hA] using hs
    · by_cases hC : (s.grid i).hasCan = true
      · simp [hA, hC]
        omega
      · by_cases hO : (s.grid i).hasObstacle = true
        · simp [hA, hC, hO]
        · simpa [hA, hC, hO] using hs
  | reset =>
    exact le_refl 0

/-- Claim C2: in every reachable state the score is ≥ 0; clicking a cell
with an obstacle (and no can) during an active round sets the score to
`max(0, score - 2)`, so with score < 2 the result is exactly 0. -/
theorem C2_score_nonneg :
    (∀ s : GameState, Reachable s → 0 ≤ s.currentCans) ∧
    (∀ (s : GameState) (i : Fin 9),
      s.gameActive = true → (s.grid i).hasCan = false → (s.grid i).hasObstacle = true →
      (handleGridClick s i).currentCans = max 0 (s.currentCans - 2)) ∧
    (∀ (s : GameState) (i : Fin 9),
      s.gameActive = true → (s.grid i).hasCan = false → (s.grid i).hasObstacle = true →
      s.currentCans < 2 → (handleGridClick s i).currentCans = 0) := by
  refine ⟨?_, ?_, ?_⟩
  · intro s h
    induction h with
    | refl => decide
    | tail h1 h2 ih => exact scoreInv_step h2 ih
  · intro s i hA hC hO
    unfold handleGridClick
    simp [hA, hC, hO]
  · intro s i hA hC hO hlt
    unfold handleGridClick
    simp [hA, hC, hO]
    omega

/-- A concrete active state with score 1 and an obstacle in cell 0. -/
def c2WitnessState : GameState :=
  { initState with
    gameActive := true
    currentCans := 1
    grid := Function.update initState.grid 0 ⟨false, true⟩ }

/-- Witness for claim C2 at concrete inputs. -/
theorem C2_witness :
    0 ≤ initState.currentCans ∧
    (handleGridClick c2WitnessState 0).currentCans = max 0 (c2WitnessState.currentCans - 2) ∧
    (handleGridClick c2WitnessState 0).currentCans = 0 :=
  ⟨C2_score_nonneg.1 initState Relation.ReflTransGen.refl,
   C2_score_nonneg.2.1 c2WitnessState 0 (by decide) (by decide) (by decide),
   C2_score_nonneg.2.2 c2WitnessState 0 (by decide) (by decide) (by decide) (by decide)⟩

/-- No grid cell holds both a collectible and an obstacle. -/
def NoOverlap (s : GameState) : Prop :=
  ∀ i : Fin 9, ¬((s.grid i).hasCan = true ∧ (s.grid i).hasObstacle = true)

theorem noOverlap_endGame (s : GameState) : NoOverlap (endGame s) := by
  intro i
  rw [endGame_grid]
  simp [Cell.isEmptyCell]

theorem noOverlap_step {s t : GameState} (h : Step s t) (hs : NoOverlap s) : NoOverlap t := by
  cases h with
  | start d =>
    unfold startGame
    by_cases hA : s.gameActive = true
    · simpa [hA] using hs
    · intro i
      simp [hA, Cell.isEmptyCell]
  | spawnCan r =>
    unfold spawnWaterCan
    by_cases hA : s.gameActive = false
    · simpa [hA] using hs
    · intro i
      by_cases hir : i = r
      · subst hir
        simp [hA, Function.update_same]
      · simp [hA, Function.update_noteq hir, Cell.isEmptyCell]
  | spawnObs r =>
    unfold spawnObstacle
    by_cases hA : s.gameActive = false
    · simpa [hA] using hs
    · by_cases hE : s.grid r = Cell.isEmptyCell
      · intro i
        by_cases hir : i = r
        · subst hir
          simp [hA, hE, Function.update_same]
        · simpa [hA, hE, Function.update_noteq hir] using hs i
      · simpa [hA, hE] using hs
  | expire i =>
    unfold obstacleExpire
    by_cases hO : (s.grid i).hasObstacle = true
    · intro j
      by_cases hji : j = i
      · subst hji
        simp [hO, Function.update_same, Cell.isEmptyCell]
      · simpa [hO, Function.update_noteq hji] using hs j
    · simpa [hO] using hs
  | tick =>
    unfold countdownTick
    by_cases hA : s.gameActive = false
    · simpa [hA] using hs
    · by_cases ht : s.timeLeft - 1 ≤ 0
      · simpa [hA, ht] using noOverlap_endGame { s with timeLeft := s.timeLeft - 1 }
      · simpa [hA, ht] using hs
  | click i =>
    unfold handleGridClick
    by_cases hA : s.gameActive = false
    · simpa [hA] using hs
    · by_cases hC : (s.grid i).hasCan = true
      · intro j
        by_cases hji : j = i
        · subst hji
          simp [hA, hC, Function.update_same]
        · simpa [hA, hC, Function.update_noteq hji] using hs j
      · by_cases hO : (s.grid i).hasObstacle = true
        · intro j
          by_cases hji : j = i
          · subst hji
            simp [hA, hC, hO, Function.update_same]
          · simpa [hA, hC, hO, Function.update_noteq hji] using hs j
        · simpa [hA, hC, hO] using hs
  | reset =>
    intro i
    simp [resetGame, Cell.isEmptyCell]

/-- Claim C10: in every reachable state no cell holds both a collectible
and an obstacle — the can spawner empties every cell before placing its
single can and the obstacle spawner only fills an empty cell — so the
click handler's can-over-obstacle precedence never sees a cell with both. -/
theorem C10_no_can_obstacle_overlap :
    ∀ s : GameState, Reachable s →
      ∀ i : Fin 9, ¬((s.grid i).hasCan = true ∧ (s.grid i).hasObstacle = true) := by
  intro s h
  induction h with
  | refl => decide
  | tail h1 h2 ih => exact noOverlap_step h2 ih

/-- Witness for claim C10 at a concrete input. -/
theorem C10_witness :
    ¬((initState.grid 0).hasCan = true ∧ (initState.grid 0).hasObstacle = true) :=
  C10_no_can_obstacle_overlap initState Relation.ReflTransGen.refl 0

theorem announceLoop_nil (score : Int) (goal : Nat) (ann : List Nat) :
    announceLoop score goal [] ann = (ann, []) := rfl

theorem announceLoop_cons (score : Int) (goal : Nat) (p : Nat) (ps ann : List Nat) :
    announceLoop score goal (p :: ps) ann =
      if (milestoneTarget goal p : Int) ≤ score ∧ p ∉ ann then
        ((announceLoop score goal ps (p :: ann)).1,
          p :: (announceLoop score goal ps (p :: ann)).2)
      else announceLoop score goal ps ann := rfl

/-- A fraction fired by the milestone loop meets its threshold, comes from
the fraction list, and was not yet announced. -/
theorem announceLoop_fired_spec (score : Int) (goal : Nat) :
    ∀ (qs ann : List Nat) (q : Nat), q ∈ (announceLoop score goal qs ann).2 →
      (milestoneTarget goal q : Int) ≤ score ∧ q ∈ qs ∧ q ∉ ann := by
  intro qs
  induction qs with
  | nil =>
    intro ann q hq
    simp [announceLoop_nil] at hq
  | cons p ps ih =>
    intro ann q hq
    rw [announceLoop_cons] at hq
    split_ifs at hq with hcond
    · rcases List.mem_cons.mp hq with hqp | hq
      · subst hqp
        exact ⟨hcond.1, List.mem_cons_self q ps, hcond.2⟩
      · obtain ⟨h1, h2, h3⟩ := ih (p :: ann) q hq
        exact ⟨h1, List.mem_cons_of_mem p h2, fun hmem => h3 (List.mem_cons_of_mem p hmem)⟩
    · obtain ⟨h1, h2, h3⟩ := ih ann q hq
      exact ⟨h1, List.mem_cons_of_mem p h2, h3⟩

/-- The announced set only grows across a milestone check. -/
theorem announceLoop_ann_mono (score : Int) (goal : Nat) :
    ∀ (qs ann : List Nat) (x : Nat), x ∈ ann → x ∈ (announceLoop score goal qs ann).1 := by
  intro qs
  induction qs with
  | nil =>
    intro ann x hx
    exact hx
  | cons p ps ih =>
    intro ann x hx
    rw [announceLoop_cons]
    split_ifs with hcond
    · exact ih (p :: ann) x (List.mem_cons_of_mem p hx)
    · exact ih ann x hx

/-- Every fraction fired by a check is recorded in the resulting set. -/
theorem announceLoop_fired_mem_ann (score : Int) (goal : Nat) :
    ∀ (qs ann : List Nat) (q : Nat), q ∈ (announceLoop score goal qs ann).2 →
      q ∈ (announceLoop score goal qs ann).1 := by
  intro qs
  induction qs with
  | nil =>
    intro ann q hq
    simp [announceLoop_nil] at hq
  | cons p ps ih =>
    intro ann q hq
    rw [announceLoop_cons] at hq ⊢
    split_ifs at hq ⊢ with hcond
    · rcases List.mem_cons.mp hq with hqp | hq
      · subst hqp
        exact announceLoop_ann_mono score goal ps (q :: ann) q (List.mem_cons_self q ann)
      · exact ih (p :: ann) q hq
    · exact ih ann q hq

/-- The fired list is a sublist of the fraction list, in loop order. -/
theorem announceLoop_fired_sublist (score : Int) (goal : Nat) :
    ∀ (qs ann : List Nat), (announceLoop score goal qs ann).2.Sublist qs := by
  intro qs
  induction qs with
  | nil =>
    intro ann
    simp [announceLoop_nil]
  | cons p ps ih =>
    intro ann
    rw [announceLoop_cons]
    split_ifs with hcond
    · exact List.Sublist.cons₂ p (ih (p :: ann))
    · exact List.Sublist.cons p (ih ann)

theorem check_fired_spec (score : Int) (goal : Nat) (ann : List Nat) (q : Nat)
    (hq : q ∈ (checkAndAnnounceMilestones score goal ann).2) :
    (milestoneTarget goal q : Int) ≤ score ∧ q ∈ milestoneQuarters ∧ q ∉ ann := by
  unfold checkAndAnnounceMilestones at hq
  split_ifs at hq with hg
  · simp at hq
  · exact announceLoop_fired_spec score goal milestoneQuarters ann q hq

theorem check_ann_mono (score : Int) (goal : Nat) (ann : List Nat) (x : Nat)
    (hx : x ∈ ann) : x ∈ (checkAndAnnounceMilestones score goal ann).1 := by
  unfold checkAndAnnounceMilestones
  split_ifs with hg
  · exact hx
  · exact announceLoop_ann_mono score goal milestoneQuarters ann x hx

theorem check_fired_mem_ann (score : Int) (goal : Nat) (ann : List Nat) (q : Nat)
    (hq : q ∈ (checkAndAnnounceMilestones score goal ann).2) :
    q ∈ (checkAndAnnounceMilestones score goal ann).1 := by
  unfold checkAndAnnounceMilestones at hq ⊢
  split_ifs at hq ⊢ with hg
  · simp at hq
  · exact announceLoop_fired_mem_ann score goal milestoneQuarters ann q hq

/-- The fractions fired by one check are strictly ascending. -/
theorem check_fired_pairwise (score : Int) (goal : Nat) (ann : List Nat) :
    (checkAndAnnounceMilestones score goal ann).2.Pairwise (· < ·) := by
  unfold checkAndAnnounceMilestones
  split_ifs with hg
  · simp
  · exact
      List.Pairwise.sublist (announceLoop_fired_sublist score goal milestoneQuarters ann)
        (by decide)

theorem check_fired_nodup (score : Int) (goal : Nat) (ann : List Nat) :
    (checkAndAnnounceMilestones score goal ann).2.Nodup :=
  (check_fired_pairwise score goal ann).imp (fun h => Nat.ne_of_lt h)

/-- A sequence of milestone evaluations within one round (e.g. one per
scoring click, with the score at that click), threading the announced set;
returns the final set and the concatenation of all fired fractions. -/
def runChecks (goal : Nat) (scores : List Int) (ann : List Nat) : List Nat × List Nat :=
  match scores with
  | [] => (ann, [])
  | sc :: rest =>
    ((runChecks goal rest (checkAndAnnounceMilestones sc goal ann).1).1,
      (checkAndAnnounceMilestones sc goal ann).2 ++
        (runChecks goal rest (checkAndAnnounceMilestones sc goal ann).1).2)

theorem runChecks_fired_not_mem (goal : Nat) :
    ∀ (scores : List Int) (ann : List Nat) (q : Nat),
      q ∈ (runChecks goal scores ann).2 → q ∉ ann := by
  intro scores
  induction scores with
  | nil =>
    intro ann q hq
    simp [runChecks] at hq
  | cons sc rest ih =>
    intro ann q hq
    rcases List.mem_append.mp hq with h1 | h2
    · exact (check_fired_spec sc goal ann q h1).2.2
    · intro hmem
      exact ih (checkAndAnnounceMilestones sc goal ann).1 q h2
        (check_ann_mono sc goal ann q hmem)

/-- Over any sequence of milestone evaluations in a round, each fraction
fires at most once. -/
theorem runChecks_count_le_one (goal : Nat) :
    ∀ (scores : List Int) (ann : List Nat) (q : Nat),
      List.count q (runChecks goal scores ann).2 ≤ 1 := by
  intro scores
  induction scores with
  | nil =>
    intro ann q
    simp [runChecks]
  | cons sc rest ih =>
    intro ann q
    have hsplit : (runChecks goal (sc :: rest) ann).2 =
        (checkAndAnnounceMilestones sc goal ann).2 ++
          (runChecks goal rest (checkAndAnnounceMilestones sc goal ann).1).2 := rfl
    rw [hsplit, List.count_append]
    by_cases hq : q ∈ (checkAndAnnounceMilestones sc goal ann).2
    · have h2 : q ∉ (runChecks goal rest (checkAndAnnounceMilestones sc goal ann).1).2 :=
        fun hmem =>
          runChecks_fired_not_mem goal rest (checkAndAnnounceMilestones sc goal ann).1 q hmem
            (check_fired_mem_ann sc goal ann q hq)
      have c2 := List.count_eq_zero.mpr h2
      have c1 := List.nodup_iff_count_le_one.mp (check_fired_nodup sc goal ann) q
      omega
    · have c1 := List.count_eq_zero.mpr hq
      have := ih (checkAndAnnounceMilestones sc goal ann).1 q
      omega

/-- Claim C8: a milestone fraction fires only when the score has reached
`ceil(goal * fraction)` and comes from the fixed fraction set
{0.25, 0.5, 0.75, 1.0} (quarters 1..4); the fractions fired by one
evaluation are in strictly ascending order; and across any sequence of
evaluations threading the round's announced set, each fraction fires at
most once. -/
theorem C8_milestones_once_ordered :
    ∀ (goal : Nat) (ann : List Nat) (score : Int) (scores : List Int) (q : Nat),
      (q ∈ (checkAndAnnounceMilestones score goal ann).2 →
        (milestoneTarget goal q : Int) ≤ score ∧ q ∈ milestoneQuarters) ∧
      (checkAndAnnounceMilestones score goal ann).2.Pairwise (· < ·) ∧
      List.count q (runChecks goal scores ann).2 ≤ 1 := by
  intro goal ann score scores q
  refine ⟨fun hq => ?_, check_fired_pairwise score goal ann, runChecks_count_le_one goal scores ann q⟩
  obtain ⟨h1, h2, h3⟩ := check_fired_spec score goal ann q hq
  exact ⟨h1, h2⟩

/-- Witness for claim C8 at concrete inputs: goal 20, a fresh round, score
reaching 5 (the 0.25 target) and then 10. -/
theorem C8_witness :
    ((milestoneTarget 20 1 : Int) ≤ 5 ∧ 1 ∈ milestoneQuarters) ∧
    (checkAndAnnounceMilestones 5 20 []).2.Pairwise (· < ·) ∧
    List.count 1 (runChecks 20 [5, 10] []).2 ≤ 1 :=
  ⟨(C8_milestones_once_ordered 20 [] 5 [5, 10] 1).1 (by decide),
   (C8_milestones_once_ordered 20 [] 5 [5, 10] 1).2.1,
   (C8_milestones_once_ordered 20 [] 5 [5, 10] 1).2.2⟩

end WaterQuest
